import Mathlib

/-!
Verification of the fuels-rs interface-description core.

This file gives a shallow embedding of:
* the type resolver (`Type::resolve` and `Type::determine_generics_for_type`
  in `packages/fuels-core/src/types/param_types/from_type_application.rs`),
* the encoding-descriptor deriver (`TryFrom<&Type> for ParamType` and the
  `try_*` matcher functions in the same file),
* the binding-generation dispatch (`generate_types`,
  `reexport_the_shared_type` in
  `packages/fuels-code-gen/src/program_bindings/custom_types.rs`),
* the binary wire encoding of values (modelled from the spec, checked
  against the expected bytes in `wasm-tests/src/lib.rs`).

Rust's unbounded recursion over the (possibly cyclic) type table is embedded
with an explicit fuel parameter; running out of fuel is a distinct error.
Machine strings are Lean `String`s, and fallible Rust functions returning
`Result<T>` become `Except String T`.
-/

/-! ## String helpers

The Rust code uses `str::starts_with` / `strip_prefix` and a handful of
descriptor-string parsers from the external `fuel_abi_types::utils` crate
(`extract_generic_name`, `extract_array_len`, `extract_str_len`,
`has_tuple_format`).  The parsers are not part of this repository's sources,
so they are modelled from the spec's description of the descriptor patterns.
-/

/-- Error messages carried by `Except`, as in the Rust `error!(Codec, ..)`
strings (the name avoids a clash with the `ParamType.String` descriptor in
signatures written inside the `ParamType` namespace). -/
abbrev ErrorMsg : Type := String

/-- Embedding of Rust `str::starts_with` on character lists. -/
def strStartsWith (s p : String) : Bool :=
  p.toList.isPrefixOf s.toList

/-- Embedding of Rust `str::strip_prefix(p).expect(..)`: drops the matched
leading pattern. -/
def strStripPfx (s p : String) : String :=
  String.mk (s.toList.drop p.toList.length)

/-- Parses a non-empty all-digit character list as a decimal number. -/
def parseNatDigits (cs : List Char) : Option Nat :=
  if cs ≠ [] ∧ cs.all (fun c => c.isDigit) then
    some (cs.foldl (fun acc c => acc * 10 + (c.toNat - 48)) 0)
  else none

/-- Modelled from the spec: the bare generic placeholder descriptor pattern
"generic X"; returns the symbol name `X` when the descriptor has that form. -/
def extract_generic_name (field : String) : Option String :=
  if strStartsWith field "generic " then some (strStripPfx field "generic ")
  else none

/-- Modelled from the spec: the fixed-array descriptor pattern "[T; N]";
returns the length `N` when the descriptor has that form. -/
def extract_array_len (field : String) : Option Nat :=
  match field.toList with
  | '[' :: rest =>
    if rest.getLast? = some ']' then
      let content := rest.dropLast
      if content.contains ';' then
        let lenPart := (content.reverse.takeWhile (fun c => c ≠ ';')).reverse
        let headPart := content.take (content.length - lenPart.length - 1)
        if headPart ≠ [] then parseNatDigits (lenPart.filter (fun c => c ≠ ' '))
        else none
      else none
    else none
  | _ => none

/-- Modelled from the spec: the fixed-length string descriptor pattern
"str[N]"; returns the length `N` when the descriptor has that form. -/
def extract_str_len (field : String) : Option Nat :=
  let cs := field.toList
  if cs.take 4 = ['s', 't', 'r', '['] ∧ cs.getLast? = some ']' then
    parseNatDigits ((cs.drop 4).dropLast)
  else none

/-- Modelled from the spec: the tuple parenthesization pattern "( ... )". -/
def has_tuple_format (field : String) : Bool :=
  strStartsWith field "(" && (field.toList.getLast? = some ')')

/-! ## Data model

`TypeApplication` and `TypeDeclaration` mirror
`fuel_abi_types::abi::program::{TypeApplication, TypeDeclaration}` as the
resolver consumes them.  `Ty` is the resolver's private `Type` struct
(`Type` is a reserved word in Lean, hence the shorter name). -/

/-- A type usage site: identifier reference, optional name, optional concrete
type arguments (source: `TypeApplication`). -/
inductive TypeApplication : Type where
  | mk (name : String) (type_id : String)
      (type_arguments : Option (List TypeApplication))

def TypeApplication.name : TypeApplication → String
  | .mk n _ _ => n

def TypeApplication.type_id : TypeApplication → String
  | .mk _ i _ => i

def TypeApplication.type_arguments :
    TypeApplication → Option (List TypeApplication)
  | .mk _ _ a => a

/-- A raw type declaration from the type table (source: `TypeDeclaration`). -/
structure TypeDeclaration : Type where
  type_id : String
  type_field : String
  components : Option (List TypeApplication)
  type_parameters : Option (List String)

/-- The fully resolved type tree (source: the private `Type` struct). -/
inductive Ty : Type where
  | mk (name : String) (type_field : String) (generic_params : List Ty)
      (components : List Ty)

def Ty.name : Ty → String
  | .mk n _ _ _ => n

def Ty.type_field : Ty → String
  | .mk _ f _ _ => f

def Ty.generic_params : Ty → List Ty
  | .mk _ _ g _ => g

def Ty.components : Ty → List Ty
  | .mk _ _ _ c => c

/-- The type table: type id to declaration, embedding the Rust
`HashMap<String, TypeDeclaration>` as an association list with unique keys. -/
abbrev TypeLookup : Type := List (String × TypeDeclaration)

/-! ## Type resolver

`Ty.resolve` embeds `Type::resolve`; `determine_generics_for_type` embeds
`Type::determine_generics_for_type`.  The latter takes the resolver as an
explicit function argument (`resolveFn`) where the Rust method calls
`Self::resolve`, so the two functions need not be mutually recursive; the
resolver always instantiates `resolveFn` with itself at one fuel less. -/

/-- Embedding of `Type::determine_generics_for_type`: computes the
`generic type id -> resolved type` binding list for the declaration being
entered.  `resolveFn` resolves a supplied type argument against a binding
list (the Rust code calls `Self::resolve` there). -/
def determine_generics_for_type
    (resolveFn : TypeApplication → List (String × Ty) → Except String Ty)
    (type_application : TypeApplication) (type_declaration : TypeDeclaration)
    (parent_generic_params : List (String × Ty)) :
    Except String (List (String × Ty)) :=
  match type_declaration.type_parameters with
  | some params =>
    if params.isEmpty then .ok parent_generic_params
    else do
      let generic_params_from_current_type ←
        (type_application.type_arguments.getD []).mapM
          (fun ty => resolveFn ty parent_generic_params)
      let generics_to_use :=
        if !generic_params_from_current_type.isEmpty then
          generic_params_from_current_type
        else
          parent_generic_params.map (fun p => p.2)
      .ok (params.zip generics_to_use)
  | none => .ok parent_generic_params

/-- Embedding of `Type::resolve`, with an explicit fuel bound standing for
Rust's unbounded recursion over the type graph. -/
def Ty.resolve : Nat → TypeApplication → TypeLookup →
    List (String × Ty) → Except String Ty
  | 0, _, _, _ => .error "recursion limit reached while resolving a type"
  | fuel + 1, type_application, type_lookup, parent_generic_params =>
    match List.lookup type_application.type_id type_lookup with
    | none =>
      .error ("type id " ++ type_application.type_id ++
        " not found in type lookup")
    | some type_declaration =>
      if (extract_generic_name type_declaration.type_field).isSome then
        match parent_generic_params.find?
            (fun p => p.1 == type_application.type_id) with
        | none =>
          .error ("type id " ++ type_application.type_id ++
            " not found in parent's generic parameters")
        | some entry =>
          .ok (Ty.mk type_application.name entry.2.type_field
            entry.2.generic_params entry.2.components)
      else do
        let generic_params_lookup ← determine_generics_for_type
          (fun a ps => Ty.resolve fuel a type_lookup ps)
          type_application type_declaration parent_generic_params
        let components ← (type_declaration.components.getD []).mapM
          (fun component =>
            Ty.resolve fuel component type_lookup generic_params_lookup)
        .ok (Ty.mk type_application.name type_declaration.type_field
          (generic_params_lookup.map (fun p => p.2)) components)

/-- Embedding of `Type::try_from`: resolution starts with no inherited
generic bindings. -/
def Ty.try_from (fuel : Nat) (type_application : TypeApplication)
    (type_lookup : TypeLookup) : Except String Ty :=
  Ty.resolve fuel type_application type_lookup []

/-! ## Encoding descriptors

`ParamType` mirrors `fuels_core::types::param_types::ParamType`.  An enum's
variants carry their names, as in `EnumVariants`. -/

/-- The encoding-descriptor tree (source: `ParamType`). -/
inductive ParamType : Type where
  | Unit
  | Bool
  | U8
  | U16
  | U32
  | U64
  | U128
  | U256
  | B256
  | Bytes
  | String
  | RawSlice
  | StringSlice
  | StringArray (len : Nat)
  | Array (elem : ParamType) (len : Nat)
  | Vector (elem : ParamType)
  | Tuple (elems : List ParamType)
  | Struct (name : String) (fields : List (String × ParamType))
      (generics : List ParamType)
  | Enum (name : String) (variants : List (String × ParamType))
      (generics : List ParamType)

/-- Modelled from the spec: `EnumVariants::new` (code in
`fuels-core/src/types/param_types/enum_variants.rs`, not among the given
sources) rejects a union with zero variants — the uninstantiable-type error
of the error-handling design — and otherwise keeps the variant list. -/
def EnumVariants.new (variants : List (String × ParamType)) :
    Except String (List (String × ParamType)) :=
  if variants.isEmpty then .error "enum variants can not be empty"
  else .ok variants

/-- Rendering of a list of resolved types inside an error message, standing
in for Rust's derived `Debug` formatting (no claim inspects this text). -/
def debugTys (ts : List Ty) : String :=
  String.intercalate ", " (ts.map Ty.type_field)

/-- Embedding of the Rust dispatch step `result.ok().flatten()`: an error
from a matcher is discarded, a successful match is kept. -/
def resultOkFlatten : Except String (Option ParamType) → Option ParamType
  | .ok o => o
  | .error _ => none

/-! The matcher functions.  Matchers that convert enclosed types take the
conversion function `conv` as an explicit argument where the Rust functions
call `try_into()`; the dispatcher instantiates `conv` with itself at one
fuel less. -/

/-- Embedding of `try_primitive`. -/
def try_primitive (the_type : Ty) : Except String (Option ParamType) :=
  .ok (match the_type.type_field with
    | "bool" => some .Bool
    | "u8" => some .U8
    | "u16" => some .U16
    | "u32" => some .U32
    | "u64" => some .U64
    | "u256" => some .U256
    | "b256" => some .B256
    | "()" => some .Unit
    | "str" => some .StringSlice
    | _ => none)

/-- Embedding of `try_array`: a descriptor matching the array pattern must
have exactly one component. -/
def try_array (conv : Ty → Except String ParamType) (the_type : Ty) :
    Except String (Option ParamType) :=
  match extract_array_len the_type.type_field with
  | some len =>
    match the_type.components with
    | [single_type] => do
      let array_type ← conv single_type
      .ok (some (.Array array_type len))
    | _ =>
      .error ("array must have elements of exactly one type. Array types: " ++
        debugTys the_type.components)
  | none => .ok none

/-- Embedding of `try_str_array`. -/
def try_str_array (the_type : Ty) : Except String (Option ParamType) :=
  .ok ((extract_str_len the_type.type_field).map (fun n => .StringArray n))

/-- Embedding of `try_str_slice`. -/
def try_str_slice (the_type : Ty) : Except String (Option ParamType) :=
  .ok (if the_type.type_field = "str" then some .StringSlice else none)

/-- Embedding of `param_types`: converts every element of the list. -/
def param_types (conv : Ty → Except String ParamType) (coll : List Ty) :
    Except String (List ParamType) :=
  coll.mapM conv

/-- Embedding of `convert_into_param_types` (same conversion as
`param_types`, kept as its own function as in the source). -/
def convert_into_param_types (conv : Ty → Except String ParamType)
    (coll : List Ty) : Except String (List ParamType) :=
  coll.mapM conv

/-- Embedding of `named_param_types`: converts every element, keeping its
declared name. -/
def named_param_types (conv : Ty → Except String ParamType) (coll : List Ty) :
    Except String (List (String × ParamType)) :=
  coll.mapM (fun ttype => do
    let p ← conv ttype
    .ok (ttype.name, p))

/-- Embedding of `try_tuple`. -/
def try_tuple (conv : Ty → Except String ParamType) (the_type : Ty) :
    Except String (Option ParamType) :=
  if has_tuple_format the_type.type_field then do
    let tuple_elements ← param_types conv the_type.components
    .ok (some (.Tuple tuple_elements))
  else .ok none

/-- Embedding of `try_vector`: the vector wrapper descriptor must carry
exactly one generic parameter, otherwise the matcher itself fails. -/
def try_vector (conv : Ty → Except String ParamType) (the_type : Ty) :
    Except String (Option ParamType) :=
  if the_type.type_field = "struct std::vec::Vec" ∨
      the_type.type_field = "struct Vec" then
    if the_type.generic_params.length ≠ 1 then
      .error ("`Vec` must have exactly one generic argument for its type. " ++
        "Found: `" ++ debugTys the_type.generic_params ++ "`")
    else do
      let elem_types ← convert_into_param_types conv the_type.generic_params
      match elem_types with
      | vec_elem_type :: _ => .ok (some (.Vector vec_elem_type))
      | [] => .ok none
  else .ok none

/-- Embedding of `try_bytes`. -/
def try_bytes (the_type : Ty) : Except String (Option ParamType) :=
  .ok (if the_type.type_field = "struct std::bytes::Bytes" ∨
      the_type.type_field = "struct Bytes" then some .Bytes else none)

/-- Embedding of `try_std_string`. -/
def try_std_string (the_type : Ty) : Except String (Option ParamType) :=
  .ok (if the_type.type_field = "struct std::string::String" ∨
      the_type.type_field = "struct String" then some .String else none)

/-- Embedding of `try_raw_slice`. -/
def try_raw_slice (the_type : Ty) : Except String (Option ParamType) :=
  .ok (if the_type.type_field = "raw untyped slice" then some .RawSlice
    else none)

/-- Embedding of `try_enum`. -/
def try_enum (conv : Ty → Except String ParamType) (the_type : Ty) :
    Except String (Option ParamType) :=
  if strStartsWith the_type.type_field "enum " then do
    let components ← named_param_types conv the_type.components
    let enum_variants ← EnumVariants.new components
    let generics ← param_types conv the_type.generic_params
    .ok (some (.Enum (strStripPfx the_type.type_field "enum ") enum_variants
      generics))
  else .ok none

/-- Embedding of `try_u128`. -/
def try_u128 (the_type : Ty) : Except String (Option ParamType) :=
  .ok (if the_type.type_field = "struct std::u128::U128" ∨
      the_type.type_field = "struct U128" then some .U128 else none)

/-- Embedding of `try_struct`: the catch-all for descriptors starting with
"struct ". -/
def try_struct (conv : Ty → Except String ParamType) (the_type : Ty) :
    Except String (Option ParamType) :=
  if strStartsWith the_type.type_field "struct " then do
    let fields ← named_param_types conv the_type.components
    let generics ← param_types conv the_type.generic_params
    .ok (some (.Struct (strStripPfx the_type.type_field "struct ") fields
      generics))
  else .ok none

/-- Embedding of `TryFrom<&Type> for ParamType`: the matchers are applied in
the source's fixed order, their errors are discarded by
`result.ok().flatten()`, the first successful match wins, and when nothing
matches the generic conversion error is returned.  The fuel bound stands for
Rust's recursion over the resolved type tree. -/
def ParamType.try_from : Nat → Ty → Except ErrorMsg ParamType
  | 0, _ => .error "recursion limit reached while converting a type"
  | fuel + 1, the_type =>
    match ([try_primitive the_type,
        try_array (ParamType.try_from fuel) the_type,
        try_str_array the_type,
        try_str_slice the_type,
        try_tuple (ParamType.try_from fuel) the_type,
        try_vector (ParamType.try_from fuel) the_type,
        try_bytes the_type,
        try_std_string the_type,
        try_raw_slice the_type,
        try_enum (ParamType.try_from fuel) the_type,
        try_u128 the_type,
        try_struct (ParamType.try_from fuel) the_type].filterMap
          resultOkFlatten).head? with
    | some matched_param_type => .ok matched_param_type
    | none =>
      .error ("type " ++ the_type.type_field ++
        " couldn't be converted into a ParamType")

/-- Embedding of `ParamType::try_from_type_application`: resolve the
application against the type table, then derive the encoding descriptor. -/
def ParamType.try_from_type_application (fuel : Nat)
    (type_application : TypeApplication) (type_lookup : TypeLookup) :
    Except ErrorMsg ParamType := do
  let resolved ← Ty.try_from fuel type_application type_lookup
  ParamType.try_from fuel resolved

/-! ## Concrete fixtures

Small concrete type tables and resolved types used by the scenario parts of
the theorems below.  They follow the shapes used in the repository's own
tests. -/

/-- The resolved `u8` primitive type. -/
def u8Ty : Ty := Ty.mk "" "u8" [] []

/-- The resolved `bool` primitive type. -/
def boolTy : Ty := Ty.mk "" "bool" [] []

/-- A one-entry type table declaring `u64`. -/
def u64Lookup : TypeLookup :=
  [("0", TypeDeclaration.mk "0" "u64" none none)]

/-- An application referencing the `u64` declaration of `u64Lookup`. -/
def u64App : TypeApplication := TypeApplication.mk "" "0" none

/-- A resolved vector type carrying exactly one generic (`u8`), as produced
for `Vec<u8>`. -/
def vecU8Ty : Ty := Ty.mk "arg" "struct std::vec::Vec" [u8Ty] []

/-- A resolved type with the vector descriptor but two generic parameters —
the malformed shape of the C1 scenario. -/
def vecTwoTy : Ty := Ty.mk "arg" "struct Vec" [u8Ty, u8Ty] []

/-- A resolved type with the vector descriptor but zero generic parameters. -/
def vecZeroTy : Ty := Ty.mk "arg" "struct std::vec::Vec" [] []

/-- A resolved type whose descriptor no matcher recognizes. -/
def unknownTy : Ty := Ty.mk "" "unknown kind" [] []

/-- An application of a declaration with no type parameters (`u64`),
resolved below under a non-empty inherited binding list. -/
def u64FieldApp : TypeApplication := TypeApplication.mk "f" "u64id" none

/-- A one-entry table declaring `u64` under id `u64id`. -/
def u64FieldLookup : TypeLookup :=
  [("u64id", TypeDeclaration.mk "u64id" "u64" none none)]

/-- The Outer/Inner renamed-generic scenario: `Outer<T> { inner: Inner<T> }`,
`Inner<K> { val: K }`, with primitive `u16` and the two generic placeholder
declarations. -/
def outerInnerLookup : TypeLookup :=
  [("t", TypeDeclaration.mk "t" "generic T" none none),
   ("k", TypeDeclaration.mk "k" "generic K" none none),
   ("u16id", TypeDeclaration.mk "u16id" "u16" none none),
   ("inner", TypeDeclaration.mk "inner" "struct Inner"
     (some [TypeApplication.mk "val" "k" none]) (some ["k"])),
   ("outer", TypeDeclaration.mk "outer" "struct Outer"
     (some [TypeApplication.mk "inner" "inner"
       (some [TypeApplication.mk "" "t" none])]) (some ["t"]))]

/-- The application `Outer<u16>` named `arg`. -/
def outerApp : TypeApplication :=
  TypeApplication.mk "arg" "outer" (some [TypeApplication.mk "" "u16id" none])

/-- The resolved `u16` type argument (it keeps the application's empty
name). -/
def u16ArgTy : Ty := Ty.mk "" "u16" [] []

/-- The expected resolved tree for `Outer<u16>`: `Inner`'s renamed
parameter `K` is bound to `u16` and no generic placeholder remains. -/
def outerResolved : Ty :=
  Ty.mk "arg" "struct Outer" [u16ArgTy]
    [Ty.mk "inner" "struct Inner" [u16ArgTy] [Ty.mk "val" "u16" [] []]]

/-- A table whose `struct T` declaration references a component id that the
table does not contain. -/
def missingComponentLookup : TypeLookup :=
  [("top", TypeDeclaration.mk "top" "struct T"
    (some [TypeApplication.mk "f" "missing" none]) none)]

/-- The application referencing the `struct T` declaration of
`missingComponentLookup`. -/
def missingComponentApp : TypeApplication := TypeApplication.mk "arg" "top" none

/-- A one-entry table declaring the bare generic placeholder `generic T`
under id `g`. -/
def genericLookup : TypeLookup :=
  [("g", TypeDeclaration.mk "g" "generic T" none none)]

/-! ## Binding generation

Embedding of `generate_types`, `reexport_the_shared_type` and the
eligibility filter from
`packages/fuels-code-gen/src/program_bindings/custom_types.rs`.  The bodies
of `expand_custom_struct` / `expand_custom_enum` (in the `structs` / `enums`
submodules) and the `TypePath` helpers are not among the given sources, so
they are modelled from the spec and checked against the expected outputs of
the tests in `custom_types.rs`.  Generated code is abstracted to the shape
the claims speak about: a struct declaration with named fields and a
positional constructor, an enum declaration with named variants, or a plain
re-export. -/

/-- Splits a character list on the Rust path separator "::". -/
def splitSegsAux : List Char → List Char → List (List Char)
  | [], acc => [acc.reverse]
  | ':' :: ':' :: rest, acc => acc.reverse :: splitSegsAux rest []
  | c :: rest, acc => splitSegsAux rest (c :: acc)

/-- Modelled from the spec: a type path such as `some_lib::SomeStruct` as its
ordered segments (source: `TypePath::new`). -/
def pathSegments (s : String) : List String :=
  (splitSegsAux s.toList []).map (fun cs => String.mk cs)

/-- A type declaration as the binding generator consumes it (source:
`FullTypeDeclaration`).  Components are (name, rendered type text) pairs;
the rendered type is abstracted to its source text, which the claims here
never inspect. -/
structure FullTypeDeclaration : Type where
  type_field : String
  components : List (String × String)
  type_parameters : List String
deriving DecidableEq

/-- Embedding of `FullTypeDeclaration::is_struct_type`. -/
def FullTypeDeclaration.is_struct_type (d : FullTypeDeclaration) : Bool :=
  strStartsWith d.type_field "struct "

/-- Embedding of `FullTypeDeclaration::is_enum_type`. -/
def FullTypeDeclaration.is_enum_type (d : FullTypeDeclaration) : Bool :=
  strStartsWith d.type_field "enum "

/-- Embedding of `is_custom_type`: only struct- or enum-shaped declarations
have standalone bindings. -/
def FullTypeDeclaration.is_custom_type (d : FullTypeDeclaration) : Bool :=
  d.is_struct_type || d.is_enum_type

/-- Embedding of `custom_type_path`: the declared name (descriptor without
its kind keyword) split into path segments. -/
def custom_type_path (d : FullTypeDeclaration) : List String :=
  if d.is_struct_type then pathSegments (strStripPfx d.type_field "struct ")
  else pathSegments (strStripPfx d.type_field "enum ")

/-- Modelled from the spec: the identifiers recognized as already provided
by the external runtime (source: `sdk_provided_custom_types_lookup`, not
among the given sources); the claims only use that this is a fixed set. -/
def sdk_provided_type_paths : List (List String) :=
  [["std", "vec", "Vec"], ["Vec"],
   ["std", "bytes", "Bytes"], ["Bytes"],
   ["std", "string", "String"], ["String"],
   ["std", "u128", "U128"], ["U128"],
   ["std", "contract_id", "ContractId"], ["ContractId"],
   ["std", "address", "Address"], ["Address"],
   ["std", "identity", "Identity"], ["Identity"]]

/-- Embedding of `is_type_sdk_provided`. -/
def is_type_sdk_provided (type_path : List String) : Bool :=
  sdk_provided_type_paths.contains type_path

/-- Embedding of `is_type_unused`: the explicit denylist of internal-only
wrapper type names. -/
def is_type_unused (type_path : List String) : Bool :=
  [["RawBytes"], ["std", "vec", "RawVec"], ["std", "bytes", "RawBytes"],
   ["RawVec"]].contains type_path

/-- Embedding of `should_skip_codegen`. -/
def should_skip_codegen (type_decl : FullTypeDeclaration) : Bool :=
  if !type_decl.is_custom_type then true
  else
    is_type_sdk_provided (custom_type_path type_decl) ||
      is_type_unused (custom_type_path type_decl)

/-- The generated declaration block for one type, abstracted to the shape
the spec describes: a value struct with named fields and the positional
argument list of its constructor, a tagged union with named variants, or a
re-export (enclosing module path, re-exported path). -/
inductive GeneratedDecl : Type where
  | structDecl (name : String) (fields : List (String × String))
      (ctorArgs : List String)
  | enumDecl (name : String) (variants : List (String × String))
  | reexport (inMod : List String) (path : List String)
deriving DecidableEq

/-- Modelled from the spec: `expand_custom_struct` (in the `structs`
submodule, not among the given sources) emits one field per component in
declared order plus a constructor taking all fields positionally; a
zero-field struct still gets a constructor taking no arguments.  Checked
against `test_struct_with_no_fields_can_be_constructed` and
`test_expand_custom_struct`. -/
def expand_custom_struct (ttype : FullTypeDeclaration) :
    Except String GeneratedDecl :=
  .ok (GeneratedDecl.structDecl ((custom_type_path ttype).getLastD "")
    ttype.components (ttype.components.map (fun c => c.1)))

/-- Modelled from the spec: `expand_custom_enum` (in the `enums` submodule,
not among the given sources) rejects a union with zero variants and
otherwise emits one variant per component in declared order.  Checked
against `test_enum_with_no_variants_cannot_be_constructed` and
`test_expand_custom_enum`. -/
def expand_custom_enum (ttype : FullTypeDeclaration) :
    Except String GeneratedDecl :=
  if ttype.components.isEmpty then
    .error "enum must have at least one variant"
  else
    .ok (GeneratedDecl.enumDecl ((custom_type_path ttype).getLastD "")
      ttype.components)

/-- Embedding of `reexport_the_shared_type`: only a `pub use` of the shared
type is emitted, wrapped in the declaration's own module.  The relative path
(source: `TypePath::relative_path_from` and `append`, modelled from the
spec) climbs one `super` per segment of the type's module, one more `super`
to step over the bindings module, then descends through `shared_types` and
the type's own module nesting; checked against
`shared_types_are_just_reexported`. -/
def reexport_the_shared_type (ttype : FullTypeDeclaration) :
    Except String GeneratedDecl :=
  let type_path := custom_type_path ttype
  let type_mod := type_path.dropLast
  let path := (type_mod.map (fun _ => "super")) ++ ["super", "shared_types"]
    ++ type_path
  .ok (GeneratedDecl.reexport type_mod path)

/-- The per-declaration dispatch inside `generate_types`: a shared type is
re-exported, otherwise a struct or enum declaration is expanded. -/
def generate_for_type (shared_types : List FullTypeDeclaration)
    (ttype : FullTypeDeclaration) : Except String GeneratedDecl :=
  if shared_types.contains ttype then reexport_the_shared_type ttype
  else if ttype.is_struct_type then expand_custom_struct ttype
  else expand_custom_enum ttype

/-- Embedding of `generate_types`: skip ineligible declarations, then emit
one generated block per remaining declaration, failing outright on the
first error (the `fold_ok` merge). -/
def generate_types (types : List FullTypeDeclaration)
    (shared_types : List FullTypeDeclaration) :
    Except String (List GeneratedDecl) :=
  (types.filter (fun ttype => !should_skip_codegen ttype)).mapM
    (generate_for_type shared_types)

/-- The shared struct declaration of the `shared_types_are_just_reexported`
test. -/
def sharedStructDecl : FullTypeDeclaration :=
  FullTypeDeclaration.mk "struct some_shared_lib::SharedStruct" [] []

/-- The empty enum declaration of
`test_enum_with_no_variants_cannot_be_constructed`. -/
def someEmptyEnum : FullTypeDeclaration :=
  FullTypeDeclaration.mk "enum SomeEmptyEnum" [] []

/-- The empty struct declaration of
`test_struct_with_no_fields_can_be_constructed`. -/
def someEmptyStruct : FullTypeDeclaration :=
  FullTypeDeclaration.mk "struct SomeEmptyStruct" [] []

/-! ## Binary wire encoding

The encoder itself (`ABIEncoder` in fuels-core's codec) is not among the
given sources; only the `decoding_and_encoding` test in
`wasm-tests/src/lib.rs` pins its output.  The encoding below is therefore
modelled from the spec's binary convention and checked against that test's
expected byte sequence. -/

/-- A value to be serialized, paired with its shape: the unit value,
booleans, fixed-width unsigned integers, a struct's ordered field values,
or a tagged-union value carrying the selected variant's index and payload. -/
inductive AbiValue : Type where
  | unit
  | boolean (b : Bool)
  | u8 (n : Nat)
  | u16 (n : Nat)
  | u32 (n : Nat)
  | u64 (n : Nat)
  | structV (fields : List AbiValue)
  | enumV (variantIndex : Nat) (payload : AbiValue)

/-- Big-endian base-256 digits of `n`, padded to `width` bytes. -/
def encodeWord (width n : Nat) : List Nat :=
  (List.range width).map (fun i => n / 256 ^ (width - 1 - i) % 256)

mutual

/-- Modelled from the spec: the binary wire convention — unsigned integers
big-endian in their full declared width, booleans one byte, struct fields
sequential in declared order with no padding, a tagged union as an 8-byte
big-endian variant index immediately followed by the payload encoding. -/
def encode : AbiValue → List Nat
  | .unit => []
  | .boolean b => [if b then 1 else 0]
  | .u8 n => encodeWord 1 n
  | .u16 n => encodeWord 2 n
  | .u32 n => encodeWord 4 n
  | .u64 n => encodeWord 8 n
  | .structV fields => encodeFields fields
  | .enumV variantIndex payload =>
    encodeWord 8 variantIndex ++ encode payload

/-- Sequential encoding of a struct's field values, in declared order. -/
def encodeFields : List AbiValue → List Nat
  | [] => []
  | v :: vs => encode v ++ encodeFields vs

end

/-- A first-match-wins dispatcher written the way the spec describes the
ordered classification: walk the matcher results in order and return the
first successful match, skipping both non-matches and matcher failures.
Used to state that the source's iterator pipeline implements exactly this
ordered dispatch. -/
def firstMatchOrdered :
    List (Except ErrorMsg (Option ParamType)) → Option ParamType
  | [] => none
  | .ok (some p) :: _ => some p
  | .ok none :: rest => firstMatchOrdered rest
  | .error _ :: rest => firstMatchOrdered rest

/-! ## Theorems -/

/-- The Rust dispatch pipeline (`map`, `flat_map(ok().flatten())`, `next()`)
computes exactly the ordered first-match over the matcher results. -/
theorem filterMap_head_eq_firstMatchOrdered
    (rs : List (Except ErrorMsg (Option ParamType))) :
    (rs.filterMap resultOkFlatten).head? = firstMatchOrdered rs := by
  induction rs with
  | nil => rfl
  | cons r rest ih =>
    cases r with
    | error e => simpa [resultOkFlatten, firstMatchOrdered] using ih
    | ok o =>
      cases o with
      | none => simpa [resultOkFlatten, firstMatchOrdered] using ih
      | some p => simp [resultOkFlatten, firstMatchOrdered]

/-- C5: classification of a resolved type tries the matchers in exactly the
fixed order primitive, array, string-array, string-slice, tuple, vector,
bytes, std-string, raw-slice, enum, u128, struct — first match wins — and
descriptor "u64" yields the `U64` descriptor (here checked end to end
through `try_from_type_application`); ordering is observable on the vector
wrapper, which the vector matcher claims before the struct catch-all. -/
theorem c5_matcher_order_first_match_wins (fuel : Nat) (t : Ty) :
    (ParamType.try_from (fuel + 1) t =
      match firstMatchOrdered [try_primitive t,
          try_array (ParamType.try_from fuel) t,
          try_str_array t,
          try_str_slice t,
          try_tuple (ParamType.try_from fuel) t,
          try_vector (ParamType.try_from fuel) t,
          try_bytes t,
          try_std_string t,
          try_raw_slice t,
          try_enum (ParamType.try_from fuel) t,
          try_u128 t,
          try_struct (ParamType.try_from fuel) t] with
        | some p => .ok p
        | none => .error ("type " ++ t.type_field ++
            " couldn't be converted into a ParamType")) ∧
    ParamType.try_from_type_application 2 u64App u64Lookup = .ok .U64 ∧
    ParamType.try_from 2 vecU8Ty = .ok (.Vector .U8) := by
  refine ⟨?_, rfl, rfl⟩
  rw [ParamType.try_from, filterMap_head_eq_firstMatchOrdered]

/-- C10: an error produced by an individual matcher never reaches the
caller of the conversion — every error the conversion returns is the
generic "couldn't be converted" one — and a failing matcher lets later
matchers claim the type: the zero-generic vector wrapper makes `try_vector`
fail, yet the conversion succeeds through the struct catch-all. -/
theorem c10_matcher_errors_are_discarded (fuel : Nat) (t : Ty) (e : ErrorMsg)
    (h : ParamType.try_from (fuel + 1) t = .error e) :
    e = "type " ++ t.type_field ++ " couldn't be converted into a ParamType" ∧
    try_vector (ParamType.try_from 0) vecZeroTy =
      .error ("`Vec` must have exactly one generic argument for its type. " ++
        "Found: `" ++ debugTys vecZeroTy.generic_params ++ "`") ∧
    ParamType.try_from 1 vecZeroTy = .ok (.Struct "std::vec::Vec" [] []) := by
  refine ⟨?_, rfl, rfl⟩
  rw [ParamType.try_from] at h
  split at h
  · exact absurd h (by simp)
  · exact (Except.error.injEq _ _ ▸ h :
      ("type " ++ t.type_field ++
        " couldn't be converted into a ParamType") = e).symm

/-- Witness for C10 at a descriptor no matcher recognizes. -/
theorem c10_witness :
    ("type unknown kind couldn't be converted into a ParamType" : ErrorMsg) =
      "type " ++ unknownTy.type_field ++
        " couldn't be converted into a ParamType" ∧
    try_vector (ParamType.try_from 0) vecZeroTy =
      .error ("`Vec` must have exactly one generic argument for its type. " ++
        "Found: `" ++ debugTys vecZeroTy.generic_params ++ "`") ∧
    ParamType.try_from 1 vecZeroTy = .ok (.Struct "std::vec::Vec" [] []) :=
  c10_matcher_errors_are_discarded 0 unknownTy _ rfl

/-- C1 counterexample: a resolved type with descriptor "struct Vec" and two
generic parameters — the conversion does not fail; it succeeds with a
struct descriptor, because the vector matcher's shape-mismatch error is
discarded by the dispatch and the struct catch-all claims the type. -/
theorem c1_counterexample :
    vecTwoTy.type_field = "struct Vec" ∧
    vecTwoTy.generic_params.length = 2 ∧
    ParamType.try_from 2 vecTwoTy = .ok (.Struct "Vec" [] [.U8, .U8]) :=
  ⟨rfl, rfl, rfl⟩

/-- C1 amended: for a resolved type with the vector wrapper descriptor and a
generic-parameter list without exactly one element, the vector matcher
itself fails with the shape-mismatch error, but the conversion as a whole
does not propagate it: the dispatch discards the matcher's error and the
struct catch-all yields a struct descriptor (shown at the two-generic
input). -/
theorem c1_amended_vector_matcher_fails_but_conversion_succeeds
    (conv : Ty → Except ErrorMsg ParamType) (t : Ty)
    (hvec : t.type_field = "struct std::vec::Vec" ∨
      t.type_field = "struct Vec")
    (hlen : t.generic_params.length ≠ 1) :
    try_vector conv t =
      .error ("`Vec` must have exactly one generic argument for its type. " ++
        "Found: `" ++ debugTys t.generic_params ++ "`") ∧
    ParamType.try_from 2 vecTwoTy = .ok (.Struct "Vec" [] [.U8, .U8]) := by
  refine ⟨?_, rfl⟩
  rw [try_vector, if_pos hvec, if_pos hlen]

/-- Witness for the amended C1 at the two-generic vector wrapper. -/
theorem c1_amended_witness :
    try_vector (ParamType.try_from 1) vecTwoTy =
      .error ("`Vec` must have exactly one generic argument for its type. " ++
        "Found: `" ++ debugTys vecTwoTy.generic_params ++ "`") ∧
    ParamType.try_from 2 vecTwoTy = .ok (.Struct "Vec" [] [.U8, .U8]) :=
  c1_amended_vector_matcher_fails_but_conversion_succeeds
    (ParamType.try_from 1) vecTwoTy (Or.inr rfl) (by decide)

/-- C3: resolving an application of a bare generic placeholder declaration
returns the inherited-binding entry whose key equals the application's type
identifier, with the name replaced by the application's own name and every
other field taken verbatim from the bound type; if no entry with that key
exists, resolution fails with the error naming the identifier. -/
theorem c3_generic_placeholder_resolution (fuel : Nat)
    (app : TypeApplication) (tbl : TypeLookup)
    (parents : List (String × Ty)) (decl : TypeDeclaration)
    (hdecl : List.lookup app.type_id tbl = some decl)
    (hgen : (extract_generic_name decl.type_field).isSome) :
    (∀ entry, parents.find? (fun p => p.1 == app.type_id) = some entry →
      Ty.resolve (fuel + 1) app tbl parents =
        .ok (Ty.mk app.name entry.2.type_field entry.2.generic_params
          entry.2.components)) ∧
    (parents.find? (fun p => p.1 == app.type_id) = none →
      Ty.resolve (fuel + 1) app tbl parents =
        .error ("type id " ++ app.type_id ++
          " not found in parent's generic parameters")) := by
  constructor
  · intro entry hfind
    simp [Ty.resolve, hdecl, hgen, hfind]
  · intro hfind
    simp [Ty.resolve, hdecl, hgen, hfind]

/-- Witness for C3: the placeholder `generic T` under id "g" resolves to the
binding bound to key "g", renamed to the application's name "x". -/
theorem c3_witness :
    Ty.resolve 1 (TypeApplication.mk "x" "g" none) genericLookup
      [("g", boolTy)] = .ok (Ty.mk "x" "bool" [] []) :=
  (c3_generic_placeholder_resolution 0 (TypeApplication.mk "x" "g" none)
    genericLookup [("g", boolTy)] (TypeDeclaration.mk "g" "generic T" none none)
    rfl rfl).1 ("g", boolTy) rfl

/-- C9: resolution fails with an error naming the offending identifier when
the application's identifier is absent from the type table and when a
generic placeholder has no entry in the inherited bindings; a missing
identifier hit while recursing into a component fails the whole resolution
the same way (shown on a table whose struct component references an absent
id), and no partially resolved type is produced — the result is `Except`,
an error or a fully resolved type. -/
theorem c9_resolution_failure_modes (fuel : Nat) (app : TypeApplication)
    (tbl : TypeLookup) (parents : List (String × Ty)) :
    (List.lookup app.type_id tbl = none →
      Ty.resolve (fuel + 1) app tbl parents =
        .error ("type id " ++ app.type_id ++ " not found in type lookup")) ∧
    (∀ decl, List.lookup app.type_id tbl = some decl →
      (extract_generic_name decl.type_field).isSome →
      parents.find? (fun p => p.1 == app.type_id) = none →
      Ty.resolve (fuel + 1) app tbl parents =
        .error ("type id " ++ app.type_id ++
          " not found in parent's generic parameters")) ∧
    Ty.resolve 2 missingComponentApp missingComponentLookup [] =
      .error "type id missing not found in type lookup" := by
  refine ⟨?_, ?_, rfl⟩
  · intro hmiss
    simp [Ty.resolve, hmiss]
  · intro decl hdecl hgen hfind
    simp [Ty.resolve, hdecl, hgen, hfind]

/-- Witness for C9 at an application whose identifier is missing from an
empty type table. -/
theorem c9_witness :
    Ty.resolve 1 (TypeApplication.mk "a" "nope" none) [] [] =
      .error "type id nope not found in type lookup" :=
  (c9_resolution_failure_modes 0 (TypeApplication.mk "a" "nope" none)
    [] []).1 rfl

/-- C2 counterexample: resolving an application of the `u64` declaration —
which introduces no generic parameters — under a non-empty inherited
binding list yields a resolved type whose generics list is the inherited
binding values, not the empty list. -/
theorem c2_counterexample :
    Ty.resolve 1 u64FieldApp u64FieldLookup [("gid", boolTy)] =
      .ok (Ty.mk "f" "u64" [boolTy] []) ∧
    (Ty.mk "f" "u64" [boolTy] []).generic_params ≠ [] :=
  ⟨rfl, by simp [Ty.generic_params]⟩

/-- C2 amended: resolving an application of a non-placeholder declaration
that introduces no generic parameters yields a resolved type whose generics
list equals the inherited binding values, positionally; in particular it is
empty exactly when the inherited bindings are empty (as at top level), not
for every choice of inherited bindings. -/
theorem c2_amended_no_params_passes_inherited_generics_through (fuel : Nat)
    (app : TypeApplication) (tbl : TypeLookup)
    (parents : List (String × Ty)) (decl : TypeDeclaration) (r : Ty)
    (hdecl : List.lookup app.type_id tbl = some decl)
    (hnogen : extract_generic_name decl.type_field = none)
    (hparams : decl.type_parameters = none ∨ decl.type_parameters = some [])
    (hres : Ty.resolve fuel app tbl parents = .ok r) :
    r.generic_params = parents.map (fun p => p.2) := by
  cases fuel with
  | zero => exact absurd hres (by simp [Ty.resolve])
  | succ n =>
    have hdet : determine_generics_for_type
        (fun a ps => Ty.resolve n a tbl ps) app decl parents =
        .ok parents := by
      rcases hparams with h | h <;> simp [determine_generics_for_type, h]
    simp only [Ty.resolve, hdecl, hnogen, Option.isSome_none, Bool.false_eq_true,
      if_false, hdet, bind, Except.bind] at hres
    cases hcomp : (decl.components.getD []).mapM
        (fun component => Ty.resolve n component tbl parents) with
    | error e => rw [hcomp] at hres; exact absurd hres (by simp)
    | ok comps =>
      rw [hcomp] at hres
      simp only [Except.ok.injEq] at hres
      subst hres
      simp [Ty.generic_params]

/-- Witness for the amended C2: resolving `u64` under one inherited binding
gives that binding's value as the generics list. -/
theorem c2_amended_witness :
    (Ty.mk "f" "u64" [boolTy] []).generic_params =
      ([("gid", boolTy)].map (fun p => p.2)) :=
  c2_amended_no_params_passes_inherited_generics_through 1 u64FieldApp
    u64FieldLookup [("gid", boolTy)]
    (TypeDeclaration.mk "u64id" "u64" none none) (Ty.mk "f" "u64" [boolTy] [])
    rfl rfl (Or.inl rfl) rfl

/-- C4: when a declaration introduces generic parameters, the application's
supplied type arguments are resolved against the inherited bindings and
paired positionally, in declared order, with the declaration's parameter
identifiers; in the Outer/Inner scenario — `Outer<T>` holding
`Inner<T>` where `Inner` renames its parameter to `K` — instantiating
`Outer` with `u16` resolves `Inner`'s `K` to `u16` and the derived
descriptor contains no unbound generic. -/
theorem c4_supplied_arguments_bound_positionally
    (resolveFn : TypeApplication → List (String × Ty) → Except String Ty)
    (app : TypeApplication) (decl : TypeDeclaration)
    (parents : List (String × Ty)) (params : List String)
    (args : List TypeApplication) (tys : List Ty)
    (hparams : decl.type_parameters = some params) (hne : params ≠ [])
    (hargs : app.type_arguments = some args)
    (hres : args.mapM (fun a => resolveFn a parents) = .ok tys)
    (htys : tys ≠ []) :
    determine_generics_for_type resolveFn app decl parents =
      .ok (params.zip tys) ∧
    Ty.resolve 4 outerApp outerInnerLookup [] = .ok outerResolved ∧
    ParamType.try_from 3 outerResolved =
      .ok (.Struct "Outer"
        [("inner", .Struct "Inner" [("val", .U16)] [.U16])] [.U16]) := by
  refine ⟨?_, rfl, rfl⟩
  have hpe : params.isEmpty = false := by
    cases params with
    | nil => exact absurd rfl hne
    | cons p ps => rfl
  have hte : tys.isEmpty = false := by
    cases tys with
    | nil => exact absurd rfl htys
    | cons t ts => rfl
  simp only [List.mapM] at hres
  simp [determine_generics_for_type, hparams, hpe, hargs, hres, hte, bind,
    Except.bind]

/-- Witness for C4: `Outer<u16>`'s single argument resolves to `u16` and is
paired with `Outer`'s declared parameter id "t". -/
theorem c4_witness :
    determine_generics_for_type
      (fun a ps => Ty.resolve 3 a outerInnerLookup ps) outerApp
      (TypeDeclaration.mk "outer" "struct Outer"
        (some [TypeApplication.mk "inner" "inner"
          (some [TypeApplication.mk "" "t" none])]) (some ["t"]))
      [] = .ok (["t"].zip [u16ArgTy]) :=
  (c4_supplied_arguments_bound_positionally
    (fun a ps => Ty.resolve 3 a outerInnerLookup ps) outerApp
    (TypeDeclaration.mk "outer" "struct Outer"
      (some [TypeApplication.mk "inner" "inner"
        (some [TypeApplication.mk "" "t" none])]) (some ["t"]))
    [] ["t"] [TypeApplication.mk "" "u16id" none] [u16ArgTy]
    rfl (by simp) rfl rfl (by simp)).1

/-- C6: a tagged-union value with selected variant index `i` encodes as the
8-byte big-endian encoding of `i` immediately followed by the payload's
encoding, with no separator or padding; for the `SomeEnum` scenario of the
wasm test — variant `V2` (index 1) carrying the struct value
`{ a: 123u32, b: false }` — the bytes are eight bytes of big-endian 1
followed by the payload bytes. -/
theorem c6_enum_encoding_layout :
    (∀ i p, encode (.enumV i p) = encodeWord 8 i ++ encode p) ∧
    (∀ i, (encodeWord 8 i).length = 8) ∧
    encode (.enumV 1 (.structV [.u32 123, .boolean false])) =
      [0, 0, 0, 0, 0, 0, 0, 1, 0, 0, 0, 123, 0] := by
  refine ⟨fun i p => by simp [encode], fun i => by simp [encodeWord], ?_⟩
  decide

/-- C7: at binding-generation time an enum declaration with zero components
fails with an error and no declaration is emitted, while a struct
declaration with zero components succeeds and its generated constructor
takes no arguments. -/
theorem c7_zero_component_declarations (de ds : FullTypeDeclaration)
    (he : de.components = []) (hs : ds.components = []) :
    expand_custom_enum de = .error "enum must have at least one variant" ∧
    expand_custom_struct ds =
      .ok (GeneratedDecl.structDecl ((custom_type_path ds).getLastD "")
        [] []) := by
  constructor
  · simp [expand_custom_enum, he]
  · simp [expand_custom_struct, hs]

/-- Witness for C7 at the empty declarations from the repository's own
tests (`SomeEmptyEnum`, `SomeEmptyStruct`). -/
theorem c7_witness :
    expand_custom_enum someEmptyEnum =
      .error "enum must have at least one variant" ∧
    expand_custom_struct someEmptyStruct =
      .ok (GeneratedDecl.structDecl
        ((custom_type_path someEmptyStruct).getLastD "") [] []) :=
  c7_zero_component_declarations someEmptyEnum someEmptyStruct rfl rfl

/-- C8: for every eligible (non-skipped) declaration in the shared-type
set, the generator emits only a re-export whose path climbs from the
current generation module to the canonical shared-types module and then
descends through the type's own module nesting; it never emits a struct or
enum declaration for the type.  Checked end to end on the
`some_shared_lib::SharedStruct` scenario of the repository's test. -/
theorem c8_shared_types_only_reexported
    (shared : List FullTypeDeclaration) (t : FullTypeDeclaration)
    (_helig : should_skip_codegen t = false) (hmem : t ∈ shared) :
    generate_for_type shared t =
      .ok (GeneratedDecl.reexport (custom_type_path t).dropLast
        (((custom_type_path t).dropLast.map (fun _ => "super")) ++
          ["super", "shared_types"] ++ custom_type_path t)) ∧
    (∀ n fs cs, generate_for_type shared t ≠
      .ok (GeneratedDecl.structDecl n fs cs)) ∧
    (∀ n vs, generate_for_type shared t ≠
      .ok (GeneratedDecl.enumDecl n vs)) ∧
    generate_types [sharedStructDecl] [sharedStructDecl] =
      .ok [GeneratedDecl.reexport ["some_shared_lib"]
        ["super", "super", "shared_types", "some_shared_lib",
          "SharedStruct"]] := by
  have hgen : generate_for_type shared t =
      .ok (GeneratedDecl.reexport (custom_type_path t).dropLast
        (((custom_type_path t).dropLast.map (fun _ => "super")) ++
          ["super", "shared_types"] ++ custom_type_path t)) := by
    simp [generate_for_type, hmem, reexport_the_shared_type]
  refine ⟨hgen, ?_, ?_, rfl⟩
  · intro n fs cs hcontra
    rw [hgen] at hcontra
    simp at hcontra
  · intro n vs hcontra
    rw [hgen] at hcontra
    simp at hcontra

/-- Witness for C8 at the shared `some_shared_lib::SharedStruct`
declaration. -/
theorem c8_witness :
    generate_for_type [sharedStructDecl] sharedStructDecl =
      .ok (GeneratedDecl.reexport
        (custom_type_path sharedStructDecl).dropLast
        (((custom_type_path sharedStructDecl).dropLast.map
          (fun _ => "super")) ++ ["super", "shared_types"] ++
          custom_type_path sharedStructDecl)) :=
  (c8_shared_types_only_reexported [sharedStructDecl] sharedStructDecl
    rfl (by simp)).1
